import Mathlib

/-!
Verification of the Savant-API stats aggregation engine.

The TypeScript sources compute over JavaScript numbers, where division by
zero yields `Infinity` or `NaN` and the `||` operator replaces falsy values
(`0`, `NaN`, `""`, `undefined`).  These behaviors are load-bearing in the
derivation formulas, so we embed JavaScript numbers as an inductive type
`JsNum` over exact rationals with explicit `NaN` and signed infinities.
-/

/-- A JavaScript number: NaN, +Infinity, -Infinity, or a finite value
(modelled as an exact rational). -/
inductive JsNum where
  | nan : JsNum
  | inf : JsNum
  | ninf : JsNum
  | num : ℚ → JsNum
deriving DecidableEq

namespace JsNum

/-- JavaScript unary minus. -/
def neg : JsNum → JsNum
  | nan => nan
  | inf => ninf
  | ninf => inf
  | num a => num (-a)

/-- JavaScript `+` on numbers. -/
def add : JsNum → JsNum → JsNum
  | nan, _ => nan
  | _, nan => nan
  | inf, ninf => nan
  | ninf, inf => nan
  | inf, _ => inf
  | _, inf => inf
  | ninf, _ => ninf
  | _, ninf => ninf
  | num a, num b => num (a + b)

/-- JavaScript `-` on numbers. -/
def sub (a b : JsNum) : JsNum := add a (neg b)

/-- JavaScript `*` on numbers. -/
def mul : JsNum → JsNum → JsNum
  | nan, _ => nan
  | _, nan => nan
  | inf, inf => inf
  | inf, ninf => ninf
  | ninf, inf => ninf
  | ninf, ninf => inf
  | inf, num b => if 0 < b then inf else if b < 0 then ninf else nan
  | num a, inf => if 0 < a then inf else if a < 0 then ninf else nan
  | ninf, num b => if 0 < b then ninf else if b < 0 then inf else nan
  | num a, ninf => if 0 < a then ninf else if a < 0 then inf else nan
  | num a, num b => num (a * b)

/-- JavaScript `/` on numbers (division by zero yields a signed infinity
or NaN, never a crash). -/
def div : JsNum → JsNum → JsNum
  | nan, _ => nan
  | _, nan => nan
  | inf, inf => nan
  | inf, ninf => nan
  | ninf, inf => nan
  | ninf, ninf => nan
  | inf, num b => if b < 0 then ninf else inf
  | ninf, num b => if b < 0 then inf else ninf
  | num _, inf => num 0
  | num _, ninf => num 0
  | num a, num b =>
      if b = 0 then (if a = 0 then nan else if 0 < a then inf else ninf)
      else num (a / b)

/-- JavaScript `>` on numbers (false whenever either side is NaN). -/
def gt : JsNum → JsNum → Bool
  | nan, _ => false
  | _, nan => false
  | inf, inf => false
  | inf, _ => true
  | ninf, _ => false
  | num _, inf => false
  | num _, ninf => true
  | num a, num b => decide (b < a)

/-- JavaScript `<=` on numbers (false whenever either side is NaN). -/
def le : JsNum → JsNum → Bool
  | nan, _ => false
  | _, nan => false
  | ninf, _ => true
  | _, ninf => false
  | _, inf => true
  | inf, _ => false
  | num a, num b => decide (a ≤ b)

/-- A JavaScript number is falsy when it is `NaN` or `0`. -/
def falsy : JsNum → Bool
  | nan => true
  | num a => decide (a = 0)
  | _ => false

/-- JavaScript `x || y` on numbers: `y` when `x` is falsy, else `x`. -/
def orElse (a b : JsNum) : JsNum := if a.falsy then b else a

end JsNum

/-- Ten to the `n` as a rational, by plain recursion (kernel friendly). -/
def pow10 : Nat → ℚ
  | 0 => 1
  | n + 1 => 10 * pow10 n

/-- Value of a digit list read in base 10. -/
def digitsToNat (ds : List Char) : Nat :=
  ds.foldl (fun n c => n * 10 + (c.toNat - '0'.toNat)) 0

/-- Consume an optional leading sign; returns whether it was `-` and the
rest of the characters. -/
def parseSignChars : List Char → Bool × List Char
  | '+' :: cs => (false, cs)
  | '-' :: cs => (true, cs)
  | cs => (false, cs)

/-- Scale a rational by `10 ^ e` for an integer `e`. -/
def applyExp (q : ℚ) : Int → ℚ
  | Int.ofNat n => q * pow10 n
  | Int.negSucc n => q / pow10 (n + 1)

/-- Parse the optional exponent suffix of a JavaScript decimal literal:
`e`/`E`, optional sign, digits; a malformed exponent is ignored (value 0),
matching `parseFloat`'s longest-valid-prefix rule. -/
def parseExpSuffix : List Char → Int
  | c :: rest =>
      if c = 'e' ∨ c = 'E' then
        let (eneg, rest2) := parseSignChars rest
        let eds := rest2.takeWhile Char.isDigit
        if eds = [] then 0
        else if eneg then -(digitsToNat eds : Int) else (digitsToNat eds : Int)
      else 0
  | [] => 0

/-- The combinatorial part of a `parseFloat` result: NaN, a signed
infinity, or sign / integer digits / fraction digits (with their count) /
exponent.  Kept rational-free so that concrete parses evaluate by
`decide`. -/
inductive FloatRepr where
  | nan : FloatRepr
  | infinite (neg : Bool) : FloatRepr
  | finite (neg : Bool) (intPart fracPart fracLen : Nat) (exp : Int) : FloatRepr
deriving DecidableEq

/-- JavaScript's global `parseFloat`, scanning phase: skip leading
whitespace, optional sign, then either the literal word `Infinity` or the
longest decimal prefix (`digits [. digits] [exponent]`); anything
unparseable gives NaN.  Note `parseFloat "Infinity"` is `Infinity`, not
NaN. -/
def parseFloatRepr (s : String) : FloatRepr :=
  let cs := s.data.dropWhile (fun c => c = ' ' ∨ c = '\t' ∨ c = '\n' ∨ c = '\r')
  let (neg, cs1) := parseSignChars cs
  if "Infinity".data.isPrefixOf cs1 then FloatRepr.infinite neg
  else
    let intDs := cs1.takeWhile Char.isDigit
    let cs2 := cs1.dropWhile Char.isDigit
    let (fracDs, cs3) :=
      match cs2 with
      | '.' :: rest => (rest.takeWhile Char.isDigit, rest.dropWhile Char.isDigit)
      | _ => ([], cs2)
    if intDs = [] ∧ fracDs = [] then FloatRepr.nan
    else
      FloatRepr.finite neg (digitsToNat intDs) (digitsToNat fracDs) fracDs.length
        (parseExpSuffix cs3)

/-- Numeric value of a scanned float:
`±(intPart + fracPart / 10 ^ fracLen) * 10 ^ exp`. -/
def reprValue : FloatRepr → JsNum
  | FloatRepr.nan => JsNum.nan
  | FloatRepr.infinite neg => if neg then JsNum.ninf else JsNum.inf
  | FloatRepr.finite neg ip fp fl ex =>
      let v := applyExp ((ip : ℚ) + (fp : ℚ) / pow10 fl) ex
      JsNum.num (if neg then -v else v)

/-- JavaScript's global `parseFloat`. -/
def parseFloat (s : String) : JsNum := reprValue (parseFloatRepr s)

/-- A CSV / JSON record: association list from field name to raw string
value.  `csv-parse` with `columns: true` produces string values; an absent
key models JavaScript `undefined`. -/
abbrev Row := List (String × String)

/-- Field access `row[key]`: `none` models `undefined`. -/
def rowGet (row : Row) (key : String) : Option String := row.lookup key

/-- JavaScript `x || d` for a possibly-undefined string `x`: the default
when `x` is `undefined` or the empty string. -/
def jsStrOr (x : Option String) (d : String) : String :=
  match x with
  | none => d
  | some s => if s = "" then d else s

/-- The tolerant field extractor (`getFloat` in every source file): walk
the candidate keys in order; the first key whose value is defined,
non-empty and parses to a non-NaN number is returned; otherwise 0. -/
def getFloat (row : Row) : List String → JsNum
  | [] => JsNum.num 0
  | k :: rest =>
      match rowGet row k with
      | none => getFloat row rest
      | some v =>
          if v = "" then getFloat row rest
          else
            match parseFloat v with
            | JsNum.nan => getFloat row rest
            | x => x

/-- Spec-side qualification test for one candidate key: present, non-null,
non-empty, and parsing to a (non-NaN) number. -/
def qualifies (row : Row) (k : String) : Bool :=
  match rowGet row k with
  | none => false
  | some v => v ≠ "" && parseFloat v ≠ JsNum.nan

/-- JavaScript `haystack.includes(needle)` on strings. -/
def strIncludes (s pat : String) : Bool :=
  (List.range (s.data.length + 1)).any (fun i => pat.data.isPrefixOf (s.data.drop i))

/-- JavaScript `s.split(" ").pop()`: the last space-delimited token
(`split` never returns an empty array, so `pop` is total). -/
def lastSpaceToken (s : String) : String :=
  (s.splitOn " ").getLastD ""

/-- JavaScript `input.substring(0, 3).toUpperCase()` (the normalizer's
fallback for inputs absent from the static table). -/
def substr3Upper (s : String) : String :=
  String.mk ((s.data.take 3).map Char.toUpper)

/-- The static team-identity table, verbatim from the sources (identical in
`savant-api.ts`, `goalie-stats.ts` and the unnamed copies): every known
full name and provider abbreviation mapped to the canonical 3-letter code,
including the relocated-franchise dual mapping ARI/UTA → UTA. -/
def teamCodeMap : List (String × String) :=
  [ ("S.J", "SJS"), ("SJ", "SJS"), ("San Jose Sharks", "SJS"),
    ("T.B", "TBL"), ("TB", "TBL"), ("Tampa Bay Lightning", "TBL"),
    ("L.A", "LAK"), ("LA", "LAK"), ("Los Angeles Kings", "LAK"),
    ("N.J", "NJD"), ("NJ", "NJD"), ("New Jersey Devils", "NJD"),
    ("NYR", "NYR"), ("New York Rangers", "NYR"),
    ("NYI", "NYI"), ("New York Islanders", "NYI"),
    ("VEG", "VGK"), ("VGK", "VGK"), ("Vegas Golden Knights", "VGK"),
    ("MTL", "MTL"), ("Montreal Canadiens", "MTL"),
    ("VAN", "VAN"), ("Vancouver Canucks", "VAN"),
    ("TOR", "TOR"), ("Toronto Maple Leafs", "TOR"),
    ("BOS", "BOS"), ("Boston Bruins", "BOS"),
    ("BUF", "BUF"), ("Buffalo Sabres", "BUF"),
    ("OTT", "OTT"), ("Ottawa Senators", "OTT"),
    ("FLA", "FLA"), ("Florida Panthers", "FLA"),
    ("DET", "DET"), ("Detroit Red Wings", "DET"),
    ("PIT", "PIT"), ("Pittsburgh Penguins", "PIT"),
    ("WSH", "WSH"), ("Washington Capitals", "WSH"),
    ("PHI", "PHI"), ("Philadelphia Flyers", "PHI"),
    ("CBJ", "CBJ"), ("Columbus Blue Jackets", "CBJ"),
    ("CAR", "CAR"), ("Carolina Hurricanes", "CAR"),
    ("CHI", "CHI"), ("Chicago Blackhawks", "CHI"),
    ("NSH", "NSH"), ("Nashville Predators", "NSH"),
    ("STL", "STL"), ("St. Louis Blues", "STL"),
    ("MIN", "MIN"), ("Minnesota Wild", "MIN"),
    ("WPG", "WPG"), ("Winnipeg Jets", "WPG"),
    ("COL", "COL"), ("Colorado Avalanche", "COL"),
    ("DAL", "DAL"), ("Dallas Stars", "DAL"),
    ("ARI", "UTA"), ("UTA", "UTA"), ("Utah Hockey Club", "UTA"),
    ("EDM", "EDM"), ("Edmonton Oilers", "EDM"),
    ("CGY", "CGY"), ("Calgary Flames", "CGY"),
    ("ANA", "ANA"), ("Anaheim Ducks", "ANA"),
    ("SEA", "SEA"), ("Seattle Kraken", "SEA") ]

/-- The normalizer `normalizeTeamCode` as in `savant-api.ts` (and the unnamed engine
copies part_001/part_002/part_000): empty/absent input returns the fixed
sentinel `UNK`; table hit returns the canonical code; otherwise the first
up-to-three characters uppercased. -/
def normalizeTeamCode (input : String) : String :=
  if input = "" then "UNK"
  else
    match teamCodeMap.lookup input with
    | some code => code
    | none => substr3Upper input

/-- The normalizer `normalizeTeamCode` as in `goalie-stats.ts` and part_003: identical
except the empty-input sentinel is the empty string. -/
def normalizeTeamCodeG (input : String) : String :=
  if input = "" then ""
  else
    match teamCodeMap.lookup input with
    | some code => code
    | none => substr3Upper input

/-! ## Source cache manager

Each source cache is a module-level variable pair (payload, last-fetch
timestamp).  We model one cache as a `CacheState` and each source's
refresh block in the handlers as a step function from the pre-request
state and the fetch outcome to the post-request state. -/

/-- One cached source snapshot: `none` means never fetched (JavaScript
`null`), with the last-refresh timestamp in milliseconds. -/
structure CacheState (α : Type) where
  snapshot : Option α
  ts : Nat
deriving DecidableEq

/-- Staleness test used by every refresh block:
`!cached || (currentTime - lastFetchTime > TTL)`. -/
def cacheStale (st : CacheState α) (now ttl : Nat) : Bool :=
  st.snapshot.isNone || decide (ttl < now - st.ts)

/-- The live-odds/schedule refresh of part_001 (lines 84-93, also
part_002 and part_000): on a fetch error the catch block only logs, so
the previous snapshot and its timestamp survive untouched and the stale
snapshot is what the rest of the handler reads. -/
def refreshOddsPhase (st : CacheState α) (now ttl : Nat)
    (fetch : Except Unit α) : CacheState α :=
  if cacheStale st now ttl then
    match fetch with
    | Except.ok payload => { snapshot := some payload, ts := now }
    | Except.error _ => st
  else st

/-- The season-statistics refresh of `savant-api.ts` / `goalie-stats.ts`:
the fetch is awaited inside the handler's outer `try`, so a fetch error
propagates (HTTP 500) — the previous snapshot and timestamp are left
unchanged in module state, but the request that hit the failure does not
serve them. -/
def refreshStatsPhase (st : CacheState α) (now ttl : Nat)
    (fetch : Except Unit α) : Except Unit (CacheState α) :=
  if cacheStale st now ttl then
    match fetch with
    | Except.ok payload => Except.ok { snapshot := some payload, ts := now }
    | Except.error e => Except.error e
  else Except.ok st

/-- One game of the NHL schedule feed, reduced to the fields the starter
refresh reads: each side's abbreviation and optional starting goaltender
(first name, last name). -/
structure NhlGameSide where
  teamAbbrev : String
  startingGoalie : Option (String × String)
deriving DecidableEq

/-- The starter map built from today's games (`goalie-stats.ts` lines
98-114): `TeamCode -> starter full name`; the recorded status is always
the literal `"confirmed"`, so only the name is modelled. -/
def buildStarterMap (games : List (NhlGameSide × NhlGameSide)) :
    List (String × String) :=
  games.foldl (fun acc g =>
    let acc1 :=
      match g.1.startingGoalie with
      | some (f, l) => acc ++ [(normalizeTeamCodeG g.1.teamAbbrev, f ++ " " ++ l)]
      | none => acc
    match g.2.startingGoalie with
    | some (f, l) => acc1 ++ [(normalizeTeamCodeG g.2.teamAbbrev, f ++ " " ++ l)]
    | none => acc1) []

/-- The starting-goalie refresh of `goalie-stats.ts` (lines 90-120): on a
fetch error the catch block executes `cachedStarterData = {}` — the prior
snapshot is REPLACED by an empty map (the timestamp is not updated). -/
def refreshStartersPhase (st : CacheState (List (String × String)))
    (now ttl : Nat) (fetch : Except Unit (List (NhlGameSide × NhlGameSide))) :
    CacheState (List (String × String)) :=
  if cacheStale st now ttl then
    match fetch with
    | Except.ok games => { snapshot := some (buildStarterMap games), ts := now }
    | Except.error _ => { snapshot := some [], ts := st.ts }
  else st

/-! ## Market matcher (savant-api.ts, lines 145-171 and 242-251) -/

/-- The embedded odds payload of a scoreboard event
(`competition.odds[0]`), reduced to the fields the handler reads. -/
structure OddsObj where
  details : Option String
  overUnder : Option ℚ
deriving DecidableEq

/-- One scoreboard event: the two competitors' raw abbreviations (feed
order, home/away flag not consulted by the matcher) and the optional odds
payload. -/
structure GameEvent where
  abbrevA : String
  abbrevB : String
  odds : Option OddsObj
deriving DecidableEq

/-- The market line object serialized in the response; the sentinel has no
moneyline field, hence the `Option`. -/
structure MarketLine where
  source : String
  line : String
  total : ℚ
  moneyline : Option String
deriving DecidableEq

/-- JavaScript `x || d` for a possibly-undefined number (`0` is falsy). -/
def jsNumOr (x : Option ℚ) (d : ℚ) : ℚ :=
  match x with
  | none => d
  | some q => if q = 0 then d else q

/-- The event predicate of `events.find(...)`:
`(teamA === targetHome && teamB === targetAway) ||
 (teamA === targetAway && teamB === targetHome)`. -/
def marketMatch (targetHome targetAway : String) (evt : GameEvent) : Bool :=
  let teamA := normalizeTeamCode evt.abbrevA
  let teamB := normalizeTeamCode evt.abbrevB
  (teamA == targetHome && teamB == targetAway) ||
    (teamA == targetAway && teamB == targetHome)

/-- The search `events.find(...)` over the scoreboard events. -/
def findGame (events : List GameEvent) (targetHome targetAway : String) :
    Option GameEvent :=
  events.find? (marketMatch targetHome targetAway)

/-- The `gameOdds` variable after the matching block: `null` unless a
game matched and carried an odds payload. -/
def gameOddsOf (events : List GameEvent) (targetHome targetAway : String) :
    Option MarketLine :=
  match findGame events targetHome targetAway with
  | some game =>
      match game.odds with
      | some oddsSource =>
          some { source := "ESPN", line := jsStrOr oddsSource.details "N/A",
                 total := jsNumOr oddsSource.overUnder (13 / 2),
                 moneyline := some "See Book" }
      | none => none
  | none => none

/-- The not-found sentinel `{ source: "No Game Found", total: 6.5,
line: "N/A" }`. -/
def notFoundOdds : MarketLine :=
  { source := "No Game Found", line := "N/A", total := 13 / 2, moneyline := none }

/-- The `odds` field of the response body: `gameOdds || sentinel`. -/
def responseOdds (events : List GameEvent) (targetHome targetAway : String) :
    MarketLine :=
  (gameOddsOf events targetHome targetAway).getD notFoundOdds

/-! ## Stat derivation engine — savant-api.ts `getSavantStats`
(lines 187-237).  Each response field is its own definition; rows come
from `csv-parse` with `columns: true`, so every CSV row carries every
column (we read string fields with a `""` default on that ground). -/

/-- High-danger candidate columns (for), savant-api.ts line 193. -/
def hdForKeys : List String :=
  ["highDangerShotsFor", "highDangerGoalsFor", "flurryAdjustedxGoalsFor"]

/-- High-danger candidate columns (against), savant-api.ts line 194. -/
def hdAgainstKeys : List String :=
  ["highDangerShotsAgainst", "highDangerGoalsAgainst", "flurryAdjustedxGoalsAgainst"]

/-- savant-api.ts line 195: guarded high-danger share,
`(f + a) > 0 ? f / (f + a) * 100 : 50`. -/
def hdcfPercentSv (teamRow : Row) : JsNum :=
  let f := getFloat teamRow hdForKeys
  let a := getFloat teamRow hdAgainstKeys
  if JsNum.gt (JsNum.add f a) (JsNum.num 0) then
    JsNum.mul (JsNum.div f (JsNum.add f a)) (JsNum.num 100)
  else JsNum.num 50

/-- savant-api.ts line 197: `getFloat(teamRow, ['iceTime']) || 1`. -/
def iceTimeSecondsSv (teamRow : Row) : JsNum :=
  JsNum.orElse (getFloat teamRow ["iceTime"]) (JsNum.num 1)

/-- savant-api.ts lines 198-199: `(xGA / iceTimeSeconds) * 3600`. -/
def xgaPer60Sv (teamRow : Row) : JsNum :=
  let xGA := getFloat teamRow ["xGoalsAgainst", "scoreVenueAdjustedxGoalsAgainst"]
  JsNum.mul (JsNum.div xGA (iceTimeSecondsSv teamRow)) (JsNum.num 3600)

/-- savant-api.ts line 201: `getFloat(teamAllRow, ['iceTime']) || 1`. -/
def allIceTimeSv (teamAllRow : Row) : JsNum :=
  JsNum.orElse (getFloat teamAllRow ["iceTime"]) (JsNum.num 1)

/-- savant-api.ts line 202. -/
def gfPerGameSv (teamAllRow : Row) : JsNum :=
  JsNum.mul (JsNum.div (getFloat teamAllRow ["goalsFor"]) (allIceTimeSv teamAllRow))
    (JsNum.num 3600)

/-- savant-api.ts line 203. -/
def gaPerGameSv (teamAllRow : Row) : JsNum :=
  JsNum.mul (JsNum.div (getFloat teamAllRow ["goalsAgainst"]) (allIceTimeSv teamAllRow))
    (JsNum.num 3600)

/-- savant-api.ts line 225:
`(getFloat(teamAllRow, ['ppGoalsFor']) / getFloat(teamAllRow, ['penaltiesDrawn'])) * 100 || 0`. -/
def ppPercentSv (teamAllRow : Row) : JsNum :=
  JsNum.orElse
    (JsNum.mul
      (JsNum.div (getFloat teamAllRow ["ppGoalsFor"]) (getFloat teamAllRow ["penaltiesDrawn"]))
      (JsNum.num 100))
    (JsNum.num 0)

/-- savant-api.ts line 226:
`100 - ((getFloat(teamAllRow, ['ppGoalsAgainst']) / getFloat(teamAllRow, ['penaltiesTaken'])) * 100 || 0)`. -/
def pkPercentSv (teamAllRow : Row) : JsNum :=
  JsNum.sub (JsNum.num 100)
    (JsNum.orElse
      (JsNum.mul
        (JsNum.div (getFloat teamAllRow ["ppGoalsAgainst"]) (getFloat teamAllRow ["penaltiesTaken"]))
        (JsNum.num 100))
      (JsNum.num 0))

/-- savant-api.ts line 227:
`(getFloat(teamAllRow, ['penaltiesMinutes']) / (allIceTime / 3600)) || 8.0`. -/
def pimsPerGameSv (teamAllRow : Row) : JsNum :=
  JsNum.orElse
    (JsNum.div (getFloat teamAllRow ["penaltiesMinutes"])
      (JsNum.div (allIceTimeSv teamAllRow) (JsNum.num 3600)))
    (JsNum.num 8)

/-- savant-api.ts lines 210-213: goalie row search by team plus
case-insensitive full-string containment of the requested name. -/
def findGoalieRowSv (goalieTable : List Row) (teamCode goalieName : String) :
    Option Row :=
  goalieTable.find? (fun g =>
    normalizeTeamCode ((rowGet g "team").getD "") == teamCode &&
      strIncludes (((rowGet g "name").getD "").toLower) (goalieName.toLower))

/-- The derived team report returned by `getSavantStats`. -/
structure TeamReport where
  name : String
  gfPerGame : JsNum
  gaPerGame : JsNum
  xgaPer60 : JsNum
  ppPercent : JsNum
  pkPercent : JsNum
  pimsPerGame : JsNum
  xgfPercent : JsNum
  hdcfPercent : JsNum
  shootingPercent : JsNum
  faceoffPercent : JsNum
  gsaxPer60 : JsNum
  svPercent : JsNum
  corsiPercent : JsNum
  gaa : JsNum
deriving DecidableEq

/-- Row predicate of `cachedTeamStats.find(...)` for a given situation. -/
def teamRowMatch (teamCode situation : String) (row : Row) : Bool :=
  normalizeTeamCode ((rowGet row "team").getD "") == teamCode &&
    (rowGet row "situation").getD "" == situation

/-- The derivation `getSavantStats` of savant-api.ts (lines 187-237).  `Except.error ()`
models the TypeError thrown (and turned into HTTP 500 by the outer catch)
when the `situation === "all"` row is absent: `getFloat(teamAllRow, ...)`
then reads a property of `undefined`.  `Except.ok none` is the `null`
report for a team with no 5on5 row. -/
def getSavantStats (teamStats goalieTable : List Row) (teamCode : String)
    (goalieName : Option String) : Except Unit (Option TeamReport) :=
  match teamStats.find? (teamRowMatch teamCode "5on5") with
  | none => Except.ok none
  | some teamRow =>
      match teamStats.find? (teamRowMatch teamCode "all") with
      | none => Except.error ()
      | some teamAllRow =>
          let gl : JsNum × JsNum × JsNum :=
            match goalieName with
            | some n =>
                if n = "" then (JsNum.num 0, JsNum.num 0, JsNum.num 0)
                else
                  match findGoalieRowSv goalieTable teamCode n with
                  | some goalieRow =>
                      let gTime := JsNum.orElse (getFloat goalieRow ["iceTime"]) (JsNum.num 1)
                      ( JsNum.mul
                          (JsNum.div (getFloat goalieRow ["goalsSavedAboveExpected"]) gTime)
                          (JsNum.num 3600),
                        getFloat goalieRow ["savePercentage"],
                        JsNum.div (JsNum.mul (getFloat goalieRow ["goalsAgainst"]) (JsNum.num 3600))
                          gTime )
                  | none => (JsNum.num 0, JsNum.num 0, JsNum.num 0)
            | none => (JsNum.num 0, JsNum.num 0, JsNum.num 0)
          Except.ok (some
            { name := teamCode
              gfPerGame := gfPerGameSv teamAllRow
              gaPerGame := gaPerGameSv teamAllRow
              xgaPer60 := xgaPer60Sv teamRow
              ppPercent := ppPercentSv teamAllRow
              pkPercent := pkPercentSv teamAllRow
              pimsPerGame := pimsPerGameSv teamAllRow
              xgfPercent := JsNum.mul (getFloat teamRow ["xGoalsPercentage"]) (JsNum.num 100)
              hdcfPercent := hdcfPercentSv teamRow
              shootingPercent := JsNum.mul (getFloat teamRow ["shootingPercentage"]) (JsNum.num 100)
              faceoffPercent := JsNum.mul (getFloat teamAllRow ["faceOffWinPercentage"]) (JsNum.num 100)
              gsaxPer60 := gl.1
              svPercent := gl.2.1
              corsiPercent := JsNum.mul (getFloat teamRow ["corsiPercentage"]) (JsNum.num 100)
              gaa := gl.2.2 })

/-! ## Stat derivation variants in the unnamed engine copies -/

/-- part_002 line 188 high-danger candidate columns (for). -/
def hdForKeysP2 : List String :=
  ["highDangerShotsFor", "highDangerGoalsFor", "highDangerxGoals", "flurryAdjustedxGoalsFor"]

/-- part_002 line 189 high-danger candidate columns (against). -/
def hdAgainstKeysP2 : List String :=
  ["highDangerShotsAgainst", "highDangerGoalsAgainst", "highDangerxGoalsAgainst",
   "flurryAdjustedxGoalsAgainst"]

/-- part_002 lines 188-192: guarded high-danger share,
`(hdShotsFor + hdShotsAgainst) > 0 ? (hdShotsFor / (hdShotsFor + hdShotsAgainst)) * 100 : 50`. -/
def hdcfPercentP2 (teamRow : Row) : JsNum :=
  let f := getFloat teamRow hdForKeysP2
  let a := getFloat teamRow hdAgainstKeysP2
  if JsNum.gt (JsNum.add f a) (JsNum.num 0) then
    JsNum.mul (JsNum.div f (JsNum.add f a)) (JsNum.num 100)
  else JsNum.num 50

/-- part_002 lines 207-209: guarded power-play percentage,
`ppOpps > 0 ? (ppGoals / ppOpps) * 100 : 0`. -/
def ppPercentP2 (teamAllRow : Row) : JsNum :=
  let ppGoals := getFloat teamAllRow ["ppGoalsFor"]
  let ppOpps := getFloat teamAllRow ["penaltiesDrawn"]
  if JsNum.gt ppOpps (JsNum.num 0) then JsNum.mul (JsNum.div ppGoals ppOpps) (JsNum.num 100)
  else JsNum.num 0

/-- part_002 lines 211-213: guarded penalty-kill percentage,
`pkOpps > 0 ? 100 - ((pkGoalsAllowed / pkOpps) * 100) : 0`. -/
def pkPercentP2 (teamAllRow : Row) : JsNum :=
  let pkGoalsAllowed := getFloat teamAllRow ["ppGoalsAgainst"]
  let pkOpps := getFloat teamAllRow ["penaltiesTaken"]
  if JsNum.gt pkOpps (JsNum.num 0) then
    JsNum.sub (JsNum.num 100) (JsNum.mul (JsNum.div pkGoalsAllowed pkOpps) (JsNum.num 100))
  else JsNum.num 0

/-- part_001 line 127 extraction:
`parseFloat(teamRow.highDangerShotsFor || teamRow.highDangerGoalsFor || "0")`. -/
def hdForP1 (teamRow : Row) : JsNum :=
  parseFloat (jsStrOr (rowGet teamRow "highDangerShotsFor")
    (jsStrOr (rowGet teamRow "highDangerGoalsFor") "0"))

/-- part_001 line 128 extraction (against side). -/
def hdAgainstP1 (teamRow : Row) : JsNum :=
  parseFloat (jsStrOr (rowGet teamRow "highDangerShotsAgainst")
    (jsStrOr (rowGet teamRow "highDangerGoalsAgainst") "0"))

/-- part_001 line 129: fallback-style high-danger share,
`(hdShotsFor / (hdShotsFor + hdShotsAgainst)) * 100 || 50` — the `|| 50`
replaces any falsy result, i.e. NaN from `0/0` but also a legitimate `0`. -/
def hdcfPercentP1 (teamRow : Row) : JsNum :=
  let f := hdForP1 teamRow
  let a := hdAgainstP1 teamRow
  JsNum.orElse (JsNum.mul (JsNum.div f (JsNum.add f a)) (JsNum.num 100)) (JsNum.num 50)

/-- part_000 line 316: `getFloat(teamAllRow, ['iceTime']) || 1`. -/
def iceTimeAllP0 (teamAllRow : Row) : JsNum :=
  JsNum.orElse (getFloat teamAllRow ["iceTime"]) (JsNum.num 1)

/-- part_000 line 333:
`(getFloat(teamAllRow, ['penaltiesMinutes', 'pim']) / (iceTimeAll / 3600)) || 8.0`. -/
def pimsPerGameP0 (teamAllRow : Row) : JsNum :=
  JsNum.orElse
    (JsNum.div (getFloat teamAllRow ["penaltiesMinutes", "pim"])
      (JsNum.div (iceTimeAllP0 teamAllRow) (JsNum.num 3600)))
    (JsNum.num 8)

/-! ## Goalie resolution pipeline (part_000, lines 281-313) -/

/-- The goalie sub-report attached to a team report by part_000. -/
structure ResolvedGoalie where
  name : String
  gsax : JsNum
  gaa : JsNum
  svPct : JsNum
  status : String
deriving DecidableEq

/-- part_000 line 299 sort key: `getFloat(g, ['gamesPlayed', 'games_played'])`. -/
def gamesPlayedOf (g : Row) : JsNum := getFloat g ["gamesPlayed", "games_played"]

/-- part_000 line 290: the roster filtered to one team. -/
def teamGoaliesOf (goalieTable : List Row) (teamCode : String) : List Row :=
  goalieTable.filter (fun g => normalizeTeamCode ((rowGet g "team").getD "") == teamCode)

/-- part_000 lines 282-288: the target goaltender name and the initial
status — the caller-requested name (status `"Unconfirmed"`) when present
and non-empty, else the starter-projection entry (status `"Confirmed"`). -/
def targetNameOf (starters : List (String × String)) (teamCode : String)
    (requested : Option String) : Option (String × String) :=
  match requested with
  | some n =>
      if n = "" then
        match starters.lookup teamCode with
        | some s => some (s, "Confirmed")
        | none => none
      else some (n, "Unconfirmed")
  | none =>
      match starters.lookup teamCode with
      | some s => some (s, "Confirmed")
      | none => none

/-- part_000 line 294: roster search by case-insensitive containment of
the target name's last space-delimited token (surname). -/
def findByLastToken (teamGoalies : List Row) (target : String) : Option Row :=
  teamGoalies.find? (fun g =>
    strIncludes (((rowGet g "name").getD "").toLower) (lastSpaceToken (target.toLower)))

/-- Keep the incumbent unless the challenger has strictly more games
played (the stable-descending-sort head accumulator). -/
def pickBest (best g2 : Row) : Row :=
  if JsNum.gt (gamesPlayedOf g2) (gamesPlayedOf best) then g2 else best

/-- part_000 lines 298-301: the head of the roster stably sorted by
games-played descending, i.e. the first row attaining the maximal
games-played value. -/
def pickTopGoalie : List Row → Option Row
  | [] => none
  | g :: rest => some (rest.foldl pickBest g)

/-- part_000 lines 304-313: the stats block computed from a resolved
roster row. -/
def goalieStatsOfRow (goalieRow : Row) : String × JsNum × JsNum × JsNum :=
  let gTime := JsNum.orElse (getFloat goalieRow ["iceTime", "timeOnIce"]) (JsNum.num 1)
  ( (rowGet goalieRow "name").getD "",
    JsNum.mul (JsNum.div (getFloat goalieRow ["goalsSavedAboveExpected", "xGoalsSaved"]) gTime)
      (JsNum.num 3600),
    JsNum.div (JsNum.mul (getFloat goalieRow ["goalsAgainst"]) (JsNum.num 3600)) gTime,
    getFloat goalieRow ["savePercentage"] )

/-- The name-based resolution step (part_000 lines 291-295): the roster
row found from the target name, or `null` when there is no (non-empty)
target name or the surname search misses. -/
def resolvedRow (goalieTable : List Row) (starters : List (String × String))
    (teamCode : String) (requested : Option String) : Option Row :=
  match targetNameOf starters teamCode requested with
  | some (n, _) => if n = "" then none else findByLastToken (teamGoaliesOf goalieTable teamCode) n
  | none => none

/-- The goalie resolution pipeline of part_000's `getSavantStats`
(lines 281-313): caller name, else starter projection, else the
highest-games-played team goaltender with status `"Projected #1"`, else
the fixed average-goaltender placeholder. -/
def resolveGoalie (goalieTable : List Row) (starters : List (String × String))
    (teamCode : String) (requested : Option String) : ResolvedGoalie :=
  let target? := targetNameOf starters teamCode requested
  let initialStatus :=
    match target? with
    | some (_, st) => st
    | none => "Unconfirmed"
  let teamGoalies := teamGoaliesOf goalieTable teamCode
  let row? := resolvedRow goalieTable starters teamCode requested
  match row? with
  | some goalieRow =>
      let s := goalieStatsOfRow goalieRow
      { name := s.1, gsax := s.2.1, gaa := s.2.2.1, svPct := s.2.2.2, status := initialStatus }
  | none =>
      match pickTopGoalie teamGoalies with
      | some goalieRow =>
          let s := goalieStatsOfRow goalieRow
          { name := s.1, gsax := s.2.1, gaa := s.2.2.1, svPct := s.2.2.2,
            status := "Projected #1" }
      | none =>
          { name := "Average Goalie", gsax := JsNum.num 0, gaa := JsNum.num 0,
            svPct := JsNum.num (9 / 10), status := initialStatus }

/-! ## Goaltender list endpoint (goalie-stats.ts, lines 122-193) -/

/-- ES `toFixed(2)` followed by `parseFloat`: round a finite value half
away from zero toward the larger candidate (the ES `toFixed` rule) at two
decimals; `Infinity`/`NaN` round-trip through their string forms. -/
def toFixed2 : JsNum → JsNum
  | JsNum.nan => JsNum.nan
  | JsNum.inf => JsNum.inf
  | JsNum.ninf => JsNum.ninf
  | JsNum.num q => JsNum.num ((⌊q * 100 + 1 / 2⌋ : ℤ) / 100)

/-- ES `toFixed(3)` followed by `parseFloat`, as in `toFixed2`. -/
def toFixed3 : JsNum → JsNum
  | JsNum.nan => JsNum.nan
  | JsNum.inf => JsNum.inf
  | JsNum.ninf => JsNum.ninf
  | JsNum.num q => JsNum.num ((⌊q * 1000 + 1 / 2⌋ : ℤ) / 1000)

/-- The starter tag attached to each listed goaltender. -/
structure StarterTag where
  isStarter : Bool
  status : String
deriving DecidableEq

/-- One entry of the goaltender list response (stats fields inlined). -/
structure GoalieListEntry where
  name : String
  team : String
  gamesPlayed : JsNum
  gaa : JsNum
  svPercent : JsNum
  gsaxPer60 : JsNum
  totalGSAx : JsNum
  starter : StarterTag
deriving DecidableEq

/-- goalie-stats.ts line 124 ice-time candidate columns. -/
def iceKeysGS : List String := ["iceTime", "Icetime", "timeOnIce", "icetime"]

/-- goalie-stats.ts line 124:
`getFloat(row, ['iceTime', 'Icetime', 'timeOnIce', 'icetime'])`. -/
def rowSeconds (row : Row) : JsNum := getFloat row iceKeysGS

/-- goalie-stats.ts line 135: `normalizeTeamCode(row.team || row.Team)`. -/
def rowTeamCode (row : Row) : String :=
  normalizeTeamCodeG (jsStrOr (rowGet row "team") (jsStrOr (rowGet row "Team") ""))

/-- goalie-stats.ts line 136: `row.name || row.Name` (CSV rows always
carry both columns; absent means `""`). -/
def rowGoalieName (row : Row) : String :=
  jsStrOr (rowGet row "name") (jsStrOr (rowGet row "Name") "")

/-- goalie-stats.ts lines 123-160, one row of the `.map(...)`: `null`
(excluded) when the extracted ice-time is `<= 0`, else the computed
entry. -/
def mkGoalieEntry (starters : List (String × String)) (row : Row) :
    Option GoalieListEntry :=
  let seconds := rowSeconds row
  if JsNum.le seconds (JsNum.num 0) then none
  else
    let ga := getFloat row ["goalsAgainst", "GoalsAgainst"]
    let totalGSAx := getFloat row ["goalsSavedAboveExpected", "GoalsSavedAboveExpected", "xGoalsSaved"]
    let svPct := getFloat row ["savePercentage", "SavePercentage"]
    let gamesPlayed := getFloat row ["gamesPlayed", "GamesPlayed"]
    let gaa := JsNum.div (JsNum.mul ga (JsNum.num 3600)) seconds
    let gsaxPer60 := JsNum.div (JsNum.mul totalGSAx (JsNum.num 3600)) seconds
    let teamCode := rowTeamCode row
    let goalieName := rowGoalieName row
    let starterTag :=
      match starters.lookup teamCode with
      | some starterName =>
          if strIncludes starterName goalieName ||
              strIncludes goalieName (lastSpaceToken starterName) then
            { isStarter := true, status := "confirmed" }
          else { isStarter := false, status := "Unconfirmed" }
      | none => { isStarter := false, status := "Unconfirmed" }
    some { name := goalieName, team := teamCode, gamesPlayed := gamesPlayed,
           gaa := toFixed2 gaa, svPercent := svPct, gsaxPer60 := toFixed3 gsaxPer60,
           totalGSAx := toFixed2 totalGSAx, starter := starterTag }

/-- The optional team filter (goalie-stats.ts lines 164-167); an absent
filter is the constant-true filter. -/
def entryTeamPass (teamFilter : Option String) (g : GoalieListEntry) : Bool :=
  match teamFilter with
  | some t => g.team == normalizeTeamCodeG t
  | none => true

/-- The optional name filter (goalie-stats.ts lines 169-172); an absent
filter is the constant-true filter. -/
def entryNamePass (nameFilter : Option String) (g : GoalieListEntry) : Bool :=
  match nameFilter with
  | some n => strIncludes (g.name.toLower) (n.toLower)
  | none => true

/-- goalie-stats.ts lines 176-180 comparator, as the before-or-equal
relation used by a stable sort: confirmed starters first, then GSAx/60
descending. -/
def goalieBefore (a b : GoalieListEntry) : Bool :=
  if a.starter.isStarter && !b.starter.isStarter then true
  else if !a.starter.isStarter && b.starter.isStarter then false
  else !(JsNum.gt b.gsaxPer60 a.gsaxPer60)

/-- goalie-stats.ts lines 122-172: build, exclude zero-ice-time rows,
apply the optional team and name filters. -/
def filteredGoalies (table : List Row) (starters : List (String × String))
    (teamFilter nameFilter : Option String) : List GoalieListEntry :=
  ((table.filterMap (mkGoalieEntry starters)).filter (entryTeamPass teamFilter)).filter
    (entryNamePass nameFilter)

/-- goalie-stats.ts lines 122-180: the filtered entries, sorted. -/
def processGoalies (table : List Row) (starters : List (String × String))
    (teamFilter nameFilter : Option String) : List GoalieListEntry :=
  (filteredGoalies table starters teamFilter nameFilter).mergeSort goalieBefore

/-- The `count` field of the goalie list response body. -/
def goalieListCount (table : List Row) (starters : List (String × String))
    (teamFilter nameFilter : Option String) : Nat :=
  (processGoalies table starters teamFilter nameFilter).length

/-! ## Helper lemmas -/

/-- The tolerant extractor never returns NaN: NaN parses are skipped and
the default is 0. -/
theorem getFloat_ne_nan (row : Row) : ∀ keys : List String, getFloat row keys ≠ JsNum.nan
  | [] => by simp [getFloat]
  | k :: rest => by
      unfold getFloat
      cases hv : rowGet row k with
      | none => exact getFloat_ne_nan row rest
      | some v =>
          by_cases hve : v = ""
          · simpa [hve] using getFloat_ne_nan row rest
          · simp only [hve, if_false]
            cases hpf : parseFloat v with
            | nan => exact getFloat_ne_nan row rest
            | inf => simp
            | ninf => simp
            | num q => simp

/-- If no candidate key qualifies, the extractor returns 0. -/
theorem getFloat_of_no_qualify (row : Row) :
    ∀ keys : List String, (∀ k ∈ keys, qualifies row k = false) →
      getFloat row keys = JsNum.num 0
  | [], _ => rfl
  | k :: rest, h => by
      have hk : qualifies row k = false := h k (List.mem_cons_self k rest)
      have hrest := getFloat_of_no_qualify row rest
        (fun k2 hk2 => h k2 (List.mem_cons_of_mem k hk2))
      unfold getFloat
      unfold qualifies at hk
      cases hv : rowGet row k with
      | none => exact hrest
      | some v =>
          rw [hv] at hk
          by_cases hve : v = ""
          · simp [hve, hrest]
          · have hpf : parseFloat v = JsNum.nan := by
              by_contra hne
              simp [hve, hne] at hk
            simp [hve, hpf, hrest]

/-- The extractor returns the parse of the first qualifying key. -/
theorem getFloat_first_qualifying (row : Row) (k : String) (post : List String)
    (v : String) (hv : rowGet row k = some v) (hne : v ≠ "")
    (hpf : parseFloat v ≠ JsNum.nan) :
    ∀ pre : List String, (∀ k2 ∈ pre, qualifies row k2 = false) →
      getFloat row (pre ++ k :: post) = parseFloat v
  | [], _ => by
      rw [List.nil_append]
      simp only [getFloat, hv]
      rw [if_neg hne]
  | p :: ps, hpre => by
      have hp : qualifies row p = false := hpre p (List.mem_cons_self p ps)
      have hrest := getFloat_first_qualifying row k post v hv hne hpf ps
        (fun k2 hk2 => hpre k2 (List.mem_cons_of_mem p hk2))
      rw [List.cons_append]
      unfold getFloat
      unfold qualifies at hp
      cases hq : rowGet row p with
      | none => exact hrest
      | some w =>
          rw [hq] at hp
          by_cases hwe : w = ""
          · simp [hwe, hrest]
          · have hwn : parseFloat w = JsNum.nan := by
              by_contra hne2
              simp [hwe, hne2] at hp
            simp [hwe, hwn, hrest]

/-! ## C3: the identity normalizer -/

/-- C3 counterexample: the unknown two-character input `"ZZ"` is not in
the table and maps to the two-character string `"ZZ"`, so the fallback is
not always a 3-character string as the claim states. -/
theorem c3_counterexample :
    teamCodeMap.lookup "ZZ" = none ∧
    normalizeTeamCode "ZZ" = "ZZ" ∧
    ("ZZ" : String).length = 2 ∧ (2 : Nat) ≠ 3 := by
  refine ⟨by decide, by decide, rfl, by decide⟩

/-- C3 (amended): `normalize` is total; the empty input returns the fixed
sentinel (`"UNK"` in savant-api.ts, `""` in goalie-stats.ts); every
non-empty input absent from the table maps, in both variants, to the first
`min 3 (length input)` characters uppercased — a deterministic, non-empty
string of at most three characters, of exactly three only when the input
has at least three characters. -/
theorem c3_normalize_amended (input : String) (hne : input ≠ "")
    (hmap : teamCodeMap.lookup input = none) :
    normalizeTeamCode input = substr3Upper input ∧
    normalizeTeamCodeG input = substr3Upper input ∧
    substr3Upper input ≠ "" ∧
    (substr3Upper input).length = min 3 input.length ∧
    normalizeTeamCode "" = "UNK" ∧
    normalizeTeamCodeG "" = "" := by
  refine ⟨?_, ?_, ?_, ?_, rfl, rfl⟩
  · simp [normalizeTeamCode, hne, hmap]
  · simp [normalizeTeamCodeG, hne, hmap]
  · intro h
    apply hne
    have hdata : ((input.data.take 3).map Char.toUpper) = [] := congrArg String.data h
    have htake : input.data.take 3 = [] := List.map_eq_nil_iff.mp hdata
    have hdatae : input.data = [] := by
      rcases List.take_eq_nil_iff.mp htake with h3 | hnil
      · exact absurd h3 (by decide)
      · exact hnil
    cases input with
    | mk data =>
        have : data = [] := hdatae
        rw [this]
  · simp only [substr3Upper, String.length, List.length_map, List.length_take]

/-- C3 witness: the amended statement at the concrete unknown input
`"Quebec Nordiques"`. -/
theorem c3_normalize_witness :
    normalizeTeamCode "Quebec Nordiques" = substr3Upper "Quebec Nordiques" ∧
    normalizeTeamCodeG "Quebec Nordiques" = substr3Upper "Quebec Nordiques" ∧
    substr3Upper "Quebec Nordiques" ≠ "" ∧
    (substr3Upper "Quebec Nordiques").length = min 3 ("Quebec Nordiques" : String).length ∧
    normalizeTeamCode "" = "UNK" ∧
    normalizeTeamCodeG "" = "" :=
  c3_normalize_amended "Quebec Nordiques" (by decide) (by decide)

/-! ## C6: the tolerant field extractor -/

/-- C6 counterexample: `parseFloat "Infinity"` is `Infinity`, which is not
NaN, so `getFloat` returns it even though it is not a finite number; the
claim would instead skip the key and return the later finite `5`. -/
theorem c6_counterexample :
    getFloat [("a", "Infinity"), ("b", "5")] ["a", "b"] = JsNum.inf ∧
    parseFloat "Infinity" = JsNum.inf ∧
    parseFloat "5" = JsNum.num 5 ∧
    JsNum.inf ≠ JsNum.num 5 := by
  refine ⟨by decide, by decide, ?_, by decide⟩
  have h : parseFloatRepr "5" = FloatRepr.finite false 5 0 0 0 := by decide
  simp only [parseFloat, h]
  norm_num [reprValue, applyExp, pow10]

/-- C6 (amended): `getFloat` walks the candidate keys in priority order
and returns the parsed value of the first key present with a non-null,
non-empty value whose `parseFloat` is not NaN — infinite parses such as
`"Infinity"` qualify, not only finite ones; a present-but-non-numeric
value is skipped as if absent; if no candidate qualifies the result is 0
regardless of the record's other contents. -/
theorem c6_getFloat_amended :
    (∀ (row : Row) (keys : List String),
       (∀ k ∈ keys, qualifies row k = false) → getFloat row keys = JsNum.num 0) ∧
    (∀ (row : Row) (pre : List String) (k : String) (post : List String) (v : String),
       (∀ k2 ∈ pre, qualifies row k2 = false) → rowGet row k = some v → v ≠ "" →
       parseFloat v ≠ JsNum.nan → getFloat row (pre ++ k :: post) = parseFloat v) :=
  ⟨fun row keys h => getFloat_of_no_qualify row keys h,
   fun row pre k post v hpre hv hne hpf =>
     getFloat_first_qualifying row k post v hv hne hpf pre hpre⟩

/-- C6 witness: the amended statement at concrete records — a record with
only a non-numeric candidate yields 0, and a record whose first candidate
is empty yields the second candidate's parse. -/
theorem c6_getFloat_witness :
    getFloat [("gp", "ten")] ["gamesPlayed", "gp"] = JsNum.num 0 ∧
    getFloat [("a", ""), ("b", "7")] ["a", "b"] = parseFloat "7" :=
  ⟨c6_getFloat_amended.1 [("gp", "ten")] ["gamesPlayed", "gp"] (by decide),
   c6_getFloat_amended.2 [("a", ""), ("b", "7")] ["a"] "b" [] "7" (by decide)
     (by decide) (by decide) (by decide)⟩

/-! ## Literal evaluation lemmas for `parseFloat` -/

/-- Evaluation of `parseFloat "0"`. -/
theorem parseFloat_zero : parseFloat "0" = JsNum.num 0 := by
  have h : parseFloatRepr "0" = FloatRepr.finite false 0 0 0 0 := by decide
  simp only [parseFloat, h]
  norm_num [reprValue, applyExp, pow10]

/-- Evaluation of `parseFloat "5"`. -/
theorem parseFloat_five : parseFloat "5" = JsNum.num 5 := by
  have h : parseFloatRepr "5" = FloatRepr.finite false 5 0 0 0 := by decide
  simp only [parseFloat, h]
  norm_num [reprValue, applyExp, pow10]

/-- Evaluation of `parseFloat "1"`. -/
theorem parseFloat_one : parseFloat "1" = JsNum.num 1 := by
  have h : parseFloatRepr "1" = FloatRepr.finite false 1 0 0 0 := by decide
  simp only [parseFloat, h]
  norm_num [reprValue, applyExp, pow10]

/-- Evaluation of `parseFloat "3"`. -/
theorem parseFloat_three : parseFloat "3" = JsNum.num 3 := by
  have h : parseFloatRepr "3" = FloatRepr.finite false 3 0 0 0 := by decide
  simp only [parseFloat, h]
  norm_num [reprValue, applyExp, pow10]

/-- Evaluation of `parseFloat "4"`. -/
theorem parseFloat_four : parseFloat "4" = JsNum.num 4 := by
  have h : parseFloatRepr "4" = FloatRepr.finite false 4 0 0 0 := by decide
  simp only [parseFloat, h]
  norm_num [reprValue, applyExp, pow10]

/-- Evaluation of `parseFloat "10"`. -/
theorem parseFloat_ten : parseFloat "10" = JsNum.num 10 := by
  have h : parseFloatRepr "10" = FloatRepr.finite false 10 0 0 0 := by decide
  simp only [parseFloat, h]
  norm_num [reprValue, applyExp, pow10]

/-- Evaluation of `parseFloat "1200"`. -/
theorem parseFloat_1200 : parseFloat "1200" = JsNum.num 1200 := by
  have h : parseFloatRepr "1200" = FloatRepr.finite false 1200 0 0 0 := by decide
  simp only [parseFloat, h]
  norm_num [reprValue, applyExp, pow10]

/-- Evaluation of `parseFloat "36000"`. -/
theorem parseFloat_36000 : parseFloat "36000" = JsNum.num 36000 := by
  have h : parseFloatRepr "36000" = FloatRepr.finite false 36000 0 0 0 := by decide
  simp only [parseFloat, h]
  norm_num [reprValue, applyExp, pow10]

/-- Evaluation of `parseFloat "9000"`. -/
theorem parseFloat_9000 : parseFloat "9000" = JsNum.num 9000 := by
  have h : parseFloatRepr "9000" = FloatRepr.finite false 9000 0 0 0 := by decide
  simp only [parseFloat, h]
  norm_num [reprValue, applyExp, pow10]

/-! ## C1: refresh failure and the three source caches -/

/-- C1 counterexample data: a starter-projection snapshot holding one
entry, fetched at time 0. -/
def c1PriorStarters : CacheState (List (String × String)) :=
  { snapshot := some [("TOR", "Joseph Woll")], ts := 0 }

/-- C1 counterexample: a failed starter refresh in goalie-stats.ts
REPLACES the prior snapshot with the empty map (the catch block runs
`cachedStarterData = {}`), so the prior snapshot is not left unchanged and
is not served; and a failed season-statistics refresh propagates the error
(HTTP 500) instead of serving the retained stale snapshot. -/
theorem c1_counterexample :
    refreshStartersPhase c1PriorStarters 3600000 600000 (Except.error ()) =
      { snapshot := some [], ts := 0 } ∧
    some ([] : List (String × String)) ≠ c1PriorStarters.snapshot ∧
    refreshStatsPhase { snapshot := some [("team", "TOR")], ts := 0 } 7200000 3600000
        (Except.error ()) = (Except.error () : Except Unit (CacheState Row)) :=
  ⟨by decide, by decide, rfl⟩

/-- C1 (amended): on a refresh failure, the live-odds cache keeps its
prior snapshot and timestamp unchanged (and the handler goes on to serve
it); the season-statistics cache also keeps snapshot and timestamp
unchanged, but the failing request errors instead of serving the stale
data; the starting-goalie cache REPLACES its prior snapshot with an empty
map, keeping only the timestamp. -/
theorem c1_refresh_amended {α : Type} (st : CacheState α)
    (stm : CacheState (List (String × String))) (now ttl : Nat) :
    refreshOddsPhase st now ttl (Except.error ()) = st ∧
    (cacheStale st now ttl = true →
      refreshStatsPhase st now ttl (Except.error ()) = Except.error ()) ∧
    (cacheStale st now ttl = false →
      refreshStatsPhase st now ttl (Except.error ()) = Except.ok st) ∧
    (cacheStale stm now ttl = true →
      refreshStartersPhase stm now ttl (Except.error ()) =
        { snapshot := some [], ts := stm.ts }) ∧
    (cacheStale stm now ttl = false →
      refreshStartersPhase stm now ttl (Except.error ()) = stm) := by
  refine ⟨?_, fun h => ?_, fun h => ?_, fun h => ?_, fun h => ?_⟩
  · unfold refreshOddsPhase
    split <;> rfl
  · simp [refreshStatsPhase, h]
  · simp [refreshStatsPhase, h]
  · simp [refreshStartersPhase, h]
  · simp [refreshStartersPhase, h]

/-- C1 witness: the amended statement at a stale concrete state for each
source. -/
theorem c1_refresh_witness :
    refreshOddsPhase (CacheState.mk (some [("x", "y")]) 0 : CacheState Row) 7200000
        3600000 (Except.error ()) = CacheState.mk (some [("x", "y")]) 0 ∧
    refreshStatsPhase (CacheState.mk (some [("x", "y")]) 0 : CacheState Row) 7200000
        3600000 (Except.error ()) = Except.error () ∧
    refreshStartersPhase c1PriorStarters 7200000 3600000 (Except.error ()) =
      { snapshot := some [], ts := c1PriorStarters.ts } :=
  ⟨(c1_refresh_amended (CacheState.mk (some [("x", "y")]) 0) c1PriorStarters
      7200000 3600000).1,
   (c1_refresh_amended (CacheState.mk (some [("x", "y")]) 0) c1PriorStarters
      7200000 3600000).2.1 (by decide),
   (c1_refresh_amended (CacheState.mk (some [("x", "y")]) 0 : CacheState Row)
      c1PriorStarters 7200000 3600000).2.2.2.1 (by decide)⟩

/-! ## C2: high-danger-chance share -/

/-- C2 counterexample data: a 5on5 row with zero high-danger shots for and
five against. -/
def c2Row : Row := [("highDangerShotsFor", "0"), ("highDangerShotsAgainst", "5")]

/-- C2 counterexample: on `c2Row` the part_001 derivation extracts counts
0 and 5 — not both zero — yet reports a share of 50, while the claimed
formula `hdFor / (hdFor + hdAgainst) * 100` is exactly 0: the `|| 50`
fallback swallows a legitimate zero share. -/
theorem c2_counterexample :
    hdForP1 c2Row = JsNum.num 0 ∧
    hdAgainstP1 c2Row = JsNum.num 5 ∧
    hdcfPercentP1 c2Row = JsNum.num 50 ∧
    (0 : ℚ) / (0 + 5) * 100 = 0 ∧
    JsNum.num 50 ≠ JsNum.num ((0 : ℚ) / (0 + 5) * 100) := by
  have hf : hdForP1 c2Row = JsNum.num 0 := by
    simp [hdForP1, jsStrOr, rowGet, c2Row, List.lookup, parseFloat_zero]
  have ha : hdAgainstP1 c2Row = JsNum.num 5 := by
    simp [hdAgainstP1, jsStrOr, rowGet, c2Row, List.lookup, parseFloat_five]
  refine ⟨hf, ha, ?_, by norm_num, by norm_num⟩
  simp only [hdcfPercentP1, hf, ha]
  norm_num [JsNum.add, JsNum.div, JsNum.mul, JsNum.orElse, JsNum.falsy]

/-- Evaluation of `parseFloat "7200"`. -/
theorem parseFloat_7200 : parseFloat "7200" = JsNum.num 7200 := by
  have h : parseFloatRepr "7200" = FloatRepr.finite false 7200 0 0 0 := by decide
  simp only [parseFloat, h]
  norm_num [reprValue, applyExp, pow10]

/-- C2 (amended): in the guarded variant (part_002, also savant-api.ts)
the share is 50 exactly when the extracted counts sum to a non-positive
value (in particular when both are 0) and equals
`f / (f + a) * 100` when the sum is positive; in the `|| 50` variant
(part_001) the share is 50 whenever the formula's value is falsy — 0 or
NaN — so a team with `f = 0` reports 50 even when `a > 0`; the formula's
value is reported only when it is non-zero. Neither variant can fail on
division by zero. -/
theorem c2_hdcf_amended (row : Row) (f a : ℚ)
    (hf2 : getFloat row hdForKeysP2 = JsNum.num f)
    (ha2 : getFloat row hdAgainstKeysP2 = JsNum.num a)
    (hf1 : hdForP1 row = JsNum.num f)
    (ha1 : hdAgainstP1 row = JsNum.num a) :
    (f + a ≤ 0 → hdcfPercentP2 row = JsNum.num 50) ∧
    (0 < f + a → hdcfPercentP2 row = JsNum.num (f / (f + a) * 100)) ∧
    (f = 0 → hdcfPercentP1 row = JsNum.num 50) ∧
    (f ≠ 0 → f + a ≠ 0 → hdcfPercentP1 row = JsNum.num (f / (f + a) * 100)) := by
  refine ⟨fun h => ?_, fun h => ?_, fun h => ?_, fun h h2 => ?_⟩
  · simp only [hdcfPercentP2, hf2, ha2, JsNum.add, JsNum.gt, decide_eq_true_eq]
    rw [if_neg (not_lt.mpr h)]
  · simp only [hdcfPercentP2, hf2, ha2, JsNum.add, JsNum.gt, decide_eq_true_eq]
    rw [if_pos h]
    simp only [JsNum.div]
    rw [if_neg (ne_of_gt h)]
    simp only [JsNum.mul]
  · subst h
    by_cases ha0 : a = 0
    · simp [hdcfPercentP1, hf1, ha1, ha0, JsNum.add, JsNum.div, JsNum.mul,
        JsNum.orElse, JsNum.falsy]
    · simp [hdcfPercentP1, hf1, ha1, ha0, JsNum.add, JsNum.div, JsNum.mul,
        JsNum.orElse, JsNum.falsy]
  · have hx : f / (f + a) * 100 ≠ 0 :=
      mul_ne_zero (div_ne_zero h h2) (by norm_num)
    simp [hdcfPercentP1, hf1, ha1, JsNum.add, JsNum.div, JsNum.mul,
      JsNum.orElse, JsNum.falsy, h2, hx]

/-- C2 witness data: three high-danger shots for, one against. -/
def c2WitnessRow : Row :=
  [("highDangerShotsFor", "3"), ("highDangerShotsAgainst", "1")]

/-- C2 witness: the amended statement at `c2WitnessRow` — both variants
report `3 / (3 + 1) * 100`. -/
theorem c2_hdcf_witness :
    hdcfPercentP2 c2WitnessRow = JsNum.num ((3 : ℚ) / (3 + 1) * 100) ∧
    hdcfPercentP1 c2WitnessRow = JsNum.num ((3 : ℚ) / (3 + 1) * 100) := by
  have hf2 : getFloat c2WitnessRow hdForKeysP2 = JsNum.num 3 := by
    simp [getFloat, rowGet, c2WitnessRow, hdForKeysP2, List.lookup, parseFloat_three]
  have ha2 : getFloat c2WitnessRow hdAgainstKeysP2 = JsNum.num 1 := by
    simp [getFloat, rowGet, c2WitnessRow, hdAgainstKeysP2, List.lookup, parseFloat_one]
  have hf1 : hdForP1 c2WitnessRow = JsNum.num 3 := by
    simp [hdForP1, jsStrOr, rowGet, c2WitnessRow, List.lookup, parseFloat_three]
  have ha1 : hdAgainstP1 c2WitnessRow = JsNum.num 1 := by
    simp [hdAgainstP1, jsStrOr, rowGet, c2WitnessRow, List.lookup, parseFloat_one]
  exact ⟨(c2_hdcf_amended c2WitnessRow 3 1 hf2 ha2 hf1 ha1).2.1 (by norm_num),
         (c2_hdcf_amended c2WitnessRow 3 1 hf2 ha2 hf1 ha1).2.2.2 (by norm_num)
           (by norm_num)⟩

/-! ## C4: power-play and penalty-kill percentages -/

/-- C4 counterexample data: five power-play goals but zero extracted
opportunities on both sides. -/
def c4Row : Row :=
  [("ppGoalsFor", "5"), ("penaltiesDrawn", "0"), ("ppGoalsAgainst", "0"),
   ("penaltiesTaken", "0")]

/-- C4 counterexample: on `c4Row` the opportunity counts extract to 0,
yet the savant-api.ts derivation reports `ppPercent = Infinity` (the
`|| 0` guard only catches NaN, not `5 / 0 = Infinity`) and
`pkPercent = 100` (the NaN from `0 / 0` is replaced by 0 and subtracted
from 100) — neither is the claimed 0. -/
theorem c4_counterexample :
    getFloat c4Row ["penaltiesDrawn"] = JsNum.num 0 ∧
    getFloat c4Row ["penaltiesTaken"] = JsNum.num 0 ∧
    ppPercentSv c4Row = JsNum.inf ∧
    pkPercentSv c4Row = JsNum.num 100 ∧
    JsNum.inf ≠ JsNum.num 0 ∧
    JsNum.num 100 ≠ JsNum.num 0 := by
  have h1 : getFloat c4Row ["ppGoalsFor"] = JsNum.num 5 := by
    simp [getFloat, rowGet, c4Row, List.lookup, parseFloat_five]
  have h2 : getFloat c4Row ["penaltiesDrawn"] = JsNum.num 0 := by
    simp [getFloat, rowGet, c4Row, List.lookup, parseFloat_zero]
  have h3 : getFloat c4Row ["ppGoalsAgainst"] = JsNum.num 0 := by
    simp [getFloat, rowGet, c4Row, List.lookup, parseFloat_zero]
  have h4 : getFloat c4Row ["penaltiesTaken"] = JsNum.num 0 := by
    simp [getFloat, rowGet, c4Row, List.lookup, parseFloat_zero]
  refine ⟨h2, h4, ?_, ?_, by decide, by simp⟩
  · simp only [ppPercentSv, h1, h2]
    norm_num [JsNum.div, JsNum.mul, JsNum.orElse, JsNum.falsy]
  · simp only [pkPercentSv, h3, h4]
    norm_num [JsNum.div, JsNum.mul, JsNum.orElse, JsNum.falsy, JsNum.sub,
      JsNum.add, JsNum.neg]

/-- C4 (amended): the guarded variant (part_002) yields 0 for both
percentages whenever the opportunity count is not positive, and the exact
formula when it is; the `|| 0` variant (savant-api.ts) yields, at zero
opportunities, 0 for `ppPercent` only when the goals also extract to 0 —
with positive goals it yields `Infinity` — and `pkPercent = 100` at zero
goals-against but `-Infinity` with positive goals-against. -/
theorem c4_pp_pk_amended (row : Row) (g o ga t : ℚ)
    (hg : getFloat row ["ppGoalsFor"] = JsNum.num g)
    (ho : getFloat row ["penaltiesDrawn"] = JsNum.num o)
    (hga : getFloat row ["ppGoalsAgainst"] = JsNum.num ga)
    (ht : getFloat row ["penaltiesTaken"] = JsNum.num t) :
    (¬ 0 < o → ppPercentP2 row = JsNum.num 0) ∧
    (¬ 0 < t → pkPercentP2 row = JsNum.num 0) ∧
    (0 < o → ppPercentP2 row = JsNum.num (g / o * 100)) ∧
    (0 < t → pkPercentP2 row = JsNum.num (100 - ga / t * 100)) ∧
    (o = 0 → g = 0 → ppPercentSv row = JsNum.num 0) ∧
    (o = 0 → 0 < g → ppPercentSv row = JsNum.inf) ∧
    (t = 0 → ga = 0 → pkPercentSv row = JsNum.num 100) ∧
    (t = 0 → 0 < ga → pkPercentSv row = JsNum.ninf) := by
  refine ⟨fun h => ?_, fun h => ?_, fun h => ?_, fun h => ?_, fun h h2 => ?_,
    fun h h2 => ?_, fun h h2 => ?_, fun h h2 => ?_⟩
  · simp only [ppPercentP2, hg, ho, JsNum.gt, decide_eq_true_eq]
    rw [if_neg h]
  · simp only [pkPercentP2, hga, ht, JsNum.gt, decide_eq_true_eq]
    rw [if_neg h]
  · simp only [ppPercentP2, hg, ho, JsNum.gt, decide_eq_true_eq]
    rw [if_pos h]
    simp only [JsNum.div]
    rw [if_neg (ne_of_gt h)]
    simp only [JsNum.mul]
  · simp only [pkPercentP2, hga, ht, JsNum.gt, decide_eq_true_eq]
    rw [if_pos h]
    simp only [JsNum.div]
    rw [if_neg (ne_of_gt h)]
    simp only [JsNum.mul, JsNum.sub, JsNum.neg, JsNum.add]
    rw [← sub_eq_add_neg]
  · subst h; subst h2
    simp [ppPercentSv, hg, ho, JsNum.div, JsNum.mul, JsNum.orElse, JsNum.falsy]
  · subst h
    simp [ppPercentSv, hg, ho, JsNum.div, JsNum.mul, JsNum.orElse, JsNum.falsy,
      ne_of_gt h2, h2]
  · subst h; subst h2
    norm_num [pkPercentSv, hga, ht, JsNum.div, JsNum.mul, JsNum.orElse,
      JsNum.falsy, JsNum.sub, JsNum.add, JsNum.neg]
  · subst h
    simp [pkPercentSv, hga, ht, JsNum.div, JsNum.mul, JsNum.orElse, JsNum.falsy,
      JsNum.sub, JsNum.add, JsNum.neg, ne_of_gt h2, h2, not_lt.mpr (le_of_lt h2)]

/-- C4 witness data: one power-play goal on four opportunities drawn, one
allowed on five taken — both guarded branches take the exact formula. -/
def c4PkRow : Row :=
  [("ppGoalsFor", "1"), ("penaltiesDrawn", "4"), ("ppGoalsAgainst", "1"),
   ("penaltiesTaken", "5")]

/-- C4 witness: the amended statement at `c4Row` (the guarded variant
reports 0 for both percentages while the `|| 0` variant reports
`Infinity` and `100`) and at `c4PkRow` (positive opportunities: both
guarded percentages equal the exact formula). -/
theorem c4_pp_pk_witness :
    ppPercentP2 c4Row = JsNum.num 0 ∧
    pkPercentP2 c4Row = JsNum.num 0 ∧
    ppPercentSv c4Row = JsNum.inf ∧
    pkPercentSv c4Row = JsNum.num 100 ∧
    ppPercentP2 c4PkRow = JsNum.num ((1 : ℚ) / 4 * 100) ∧
    pkPercentP2 c4PkRow = JsNum.num (100 - (1 : ℚ) / 5 * 100) := by
  have h1 : getFloat c4Row ["ppGoalsFor"] = JsNum.num 5 := by
    simp [getFloat, rowGet, c4Row, List.lookup, parseFloat_five]
  have h2 : getFloat c4Row ["penaltiesDrawn"] = JsNum.num 0 := by
    simp [getFloat, rowGet, c4Row, List.lookup, parseFloat_zero]
  have h3 : getFloat c4Row ["ppGoalsAgainst"] = JsNum.num 0 := by
    simp [getFloat, rowGet, c4Row, List.lookup, parseFloat_zero]
  have h4 : getFloat c4Row ["penaltiesTaken"] = JsNum.num 0 := by
    simp [getFloat, rowGet, c4Row, List.lookup, parseFloat_zero]
  have k1 : getFloat c4PkRow ["ppGoalsFor"] = JsNum.num 1 := by
    simp [getFloat, rowGet, c4PkRow, List.lookup, parseFloat_one]
  have k2 : getFloat c4PkRow ["penaltiesDrawn"] = JsNum.num 4 := by
    simp [getFloat, rowGet, c4PkRow, List.lookup, parseFloat_four]
  have k3 : getFloat c4PkRow ["ppGoalsAgainst"] = JsNum.num 1 := by
    simp [getFloat, rowGet, c4PkRow, List.lookup, parseFloat_one]
  have k4 : getFloat c4PkRow ["penaltiesTaken"] = JsNum.num 5 := by
    simp [getFloat, rowGet, c4PkRow, List.lookup, parseFloat_five]
  exact ⟨(c4_pp_pk_amended c4Row 5 0 0 0 h1 h2 h3 h4).1 (by norm_num),
         (c4_pp_pk_amended c4Row 5 0 0 0 h1 h2 h3 h4).2.1 (by norm_num),
         (c4_pp_pk_amended c4Row 5 0 0 0 h1 h2 h3 h4).2.2.2.2.2.1 rfl (by norm_num),
         (c4_pp_pk_amended c4Row 5 0 0 0 h1 h2 h3 h4).2.2.2.2.2.2.1 rfl rfl,
         (c4_pp_pk_amended c4PkRow 1 4 1 5 k1 k2 k3 k4).2.2.1 (by norm_num),
         (c4_pp_pk_amended c4PkRow 1 4 1 5 k1 k2 k3 k4).2.2.2.1 (by norm_num)⟩

/-! ## C5: penalty minutes per game -/

/-- C5 counterexample data: zero extracted ice-time with four penalty
minutes. -/
def c5Row : Row := [("iceTime", "0"), ("penaltiesMinutes", "4")]

/-- C5 counterexample: with ice-time extracting to 0 the `|| 1` guard
turns the divisor into one second, so savant-api.ts (and part_000) report
`4 / (1 / 3600) = 14400` penalty minutes per game — not the fixed
league-average default 8.0 the claim requires for zero ice-time. -/
theorem c5_counterexample :
    getFloat c5Row ["iceTime"] = JsNum.num 0 ∧
    pimsPerGameSv c5Row = JsNum.num 14400 ∧
    pimsPerGameP0 c5Row = JsNum.num 14400 ∧
    JsNum.num 14400 ≠ JsNum.num 8 := by
  have ht : getFloat c5Row ["iceTime"] = JsNum.num 0 := by
    simp [getFloat, rowGet, c5Row, List.lookup, parseFloat_zero]
  have hp : getFloat c5Row ["penaltiesMinutes"] = JsNum.num 4 := by
    simp [getFloat, rowGet, c5Row, List.lookup, parseFloat_four]
  have hp0 : getFloat c5Row ["penaltiesMinutes", "pim"] = JsNum.num 4 := by
    simp [getFloat, rowGet, c5Row, List.lookup, parseFloat_four]
  refine ⟨ht, ?_, ?_, by simp⟩
  · simp only [pimsPerGameSv, allIceTimeSv, ht, hp]
    norm_num [JsNum.div, JsNum.mul, JsNum.orElse, JsNum.falsy]
  · simp only [pimsPerGameP0, iceTimeAllP0, ht, hp0]
    norm_num [JsNum.div, JsNum.mul, JsNum.orElse, JsNum.falsy]

/-- C5 (amended): `pimsPerGame` equals total penalty minutes divided by
`(T / 3600)` where `T` is the extracted ice-time defaulted to one second
when it extracts to 0; the fixed default 8.0 is produced exactly when the
quotient is falsy, i.e. when the penalty minutes extract to 0 — zero
ice-time with positive penalty minutes yields `pims / (1 / 3600)`
(`pims × 3600`), not the default. Both cited variants agree. -/
theorem c5_pims_amended (row : Row) (p t : ℚ)
    (hp : getFloat row ["penaltiesMinutes"] = JsNum.num p)
    (hp0 : getFloat row ["penaltiesMinutes", "pim"] = JsNum.num p)
    (ht : getFloat row ["iceTime"] = JsNum.num t) :
    (p = 0 → pimsPerGameSv row = JsNum.num 8 ∧ pimsPerGameP0 row = JsNum.num 8) ∧
    (p ≠ 0 → t = 0 →
      pimsPerGameSv row = JsNum.num (p / ((1 : ℚ) / 3600)) ∧
      pimsPerGameP0 row = JsNum.num (p / ((1 : ℚ) / 3600))) ∧
    (p ≠ 0 → t ≠ 0 →
      pimsPerGameSv row = JsNum.num (p / (t / 3600)) ∧
      pimsPerGameP0 row = JsNum.num (p / (t / 3600))) := by
  refine ⟨fun h => ?_, fun h h2 => ?_, fun h h2 => ?_⟩
  · subst h
    by_cases ht0 : t = 0
    · constructor <;>
        · simp only [pimsPerGameSv, pimsPerGameP0, allIceTimeSv, iceTimeAllP0,
            ht, hp, hp0, ht0]
          norm_num [JsNum.div, JsNum.orElse, JsNum.falsy]
    · constructor <;>
        · simp only [pimsPerGameSv, pimsPerGameP0, allIceTimeSv, iceTimeAllP0,
            ht, hp, hp0]
          norm_num [JsNum.div, JsNum.orElse, JsNum.falsy, ht0]
  · subst h2
    have hq : p / ((1 : ℚ) / 3600) ≠ 0 := div_ne_zero h (by norm_num)
    constructor <;>
      · simp only [pimsPerGameSv, pimsPerGameP0, allIceTimeSv, iceTimeAllP0,
          ht, hp, hp0]
        norm_num [JsNum.div, JsNum.orElse, JsNum.falsy, hq]
  · have ht36 : t / 3600 ≠ 0 := div_ne_zero h2 (by norm_num)
    have hq : p / (t / 3600) ≠ 0 := div_ne_zero h ht36
    constructor <;>
      · simp only [pimsPerGameSv, pimsPerGameP0, allIceTimeSv, iceTimeAllP0,
          ht, hp, hp0]
        norm_num [JsNum.div, JsNum.orElse, JsNum.falsy, h2, ht36, hq]

/-- C5 witness data: two hours of ice-time, four penalty minutes. -/
def c5WitnessRow : Row := [("iceTime", "7200"), ("penaltiesMinutes", "4")]

/-- C5 witness: the amended statement at `c5WitnessRow`. -/
theorem c5_pims_witness :
    pimsPerGameSv c5WitnessRow = JsNum.num ((4 : ℚ) / ((7200 : ℚ) / 3600)) ∧
    pimsPerGameP0 c5WitnessRow = JsNum.num ((4 : ℚ) / ((7200 : ℚ) / 3600)) := by
  have hp : getFloat c5WitnessRow ["penaltiesMinutes"] = JsNum.num 4 := by
    simp [getFloat, rowGet, c5WitnessRow, List.lookup, parseFloat_four]
  have hp0 : getFloat c5WitnessRow ["penaltiesMinutes", "pim"] = JsNum.num 4 := by
    simp [getFloat, rowGet, c5WitnessRow, List.lookup, parseFloat_four]
  have ht : getFloat c5WitnessRow ["iceTime"] = JsNum.num 7200 := by
    simp [getFloat, rowGet, c5WitnessRow, List.lookup, parseFloat_7200]
  exact (c5_pims_amended c5WitnessRow 4 7200 hp hp0 ht).2.2 (by norm_num) (by norm_num)

/-! ## C7: the market matcher -/

/-- C7: market matching is symmetric in the requested pair — an event
matches exactly when its competitors' normalized codes equal the
requested `{home, away}` as an unordered pair (`Sym2`); the served odds
object is identical under swapped orientation; and when no event matches,
or the matched event has no odds payload, the response carries the
not-found sentinel whose documented default total is 6.5. -/
theorem c7_market_matcher :
    (∀ (evt : GameEvent) (h a : String),
       marketMatch h a evt = true ↔
         Sym2.mk (normalizeTeamCode evt.abbrevA, normalizeTeamCode evt.abbrevB) =
           Sym2.mk (h, a)) ∧
    (∀ (events : List GameEvent) (h a : String),
       responseOdds events h a = responseOdds events a h) ∧
    (∀ (events : List GameEvent) (h a : String),
       findGame events h a = none → responseOdds events h a = notFoundOdds) ∧
    (∀ (events : List GameEvent) (h a : String) (g : GameEvent),
       findGame events h a = some g → g.odds = none →
         responseOdds events h a = notFoundOdds) ∧
    notFoundOdds.total = 13 / 2 := by
  refine ⟨?_, ?_, ?_, ?_, rfl⟩
  · intro evt h a
    simp only [marketMatch, Bool.or_eq_true, Bool.and_eq_true, beq_iff_eq, Sym2.eq_iff]
  · intro events h a
    have hpred : marketMatch h a = marketMatch a h := by
      funext evt
      simp only [marketMatch]
      exact Bool.or_comm _ _
    simp only [responseOdds, gameOddsOf, findGame, hpred]
  · intro events h a hfind
    simp [responseOdds, gameOddsOf, hfind]
  · intro events h a g hfind hodds
    simp [responseOdds, gameOddsOf, hfind, hodds]

/-- C7 witness data: a scoreboard event pairing BOS and TOR with no
embedded odds payload. -/
def c7Event : GameEvent := { abbrevA := "BOS", abbrevB := "TOR", odds := none }

/-- C7 witness: an empty feed and an odds-less matched game both produce
the sentinel, and the response is orientation-independent. -/
theorem c7_market_witness :
    responseOdds [] "TOR" "BOS" = notFoundOdds ∧
    responseOdds [c7Event] "TOR" "BOS" = notFoundOdds ∧
    responseOdds [c7Event] "TOR" "BOS" = responseOdds [c7Event] "BOS" "TOR" := by
  refine ⟨c7_market_matcher.2.2.1 [] "TOR" "BOS" rfl,
          c7_market_matcher.2.2.2.1 [c7Event] "TOR" "BOS" c7Event ?_ rfl,
          c7_market_matcher.2.1 [c7Event] "TOR" "BOS"⟩
  decide

/-! ## C8: the goalie resolution fallback -/

/-- JavaScript `>` is irreflexive. -/
theorem jsGt_irrefl (x : JsNum) : JsNum.gt x x = false := by
  cases x <;> simp [JsNum.gt]

/-- If `u > v` fails and `v > w` fails then `u > w` fails, provided the
middle value is not NaN (the extractor never produces NaN). -/
theorem jsGt_false_trans (u v w : JsNum) (hv : v ≠ JsNum.nan)
    (h1 : JsNum.gt u v = false) (h2 : JsNum.gt v w = false) :
    JsNum.gt u w = false := by
  cases u <;> cases v <;> cases w <;> simp_all [JsNum.gt] <;> linarith

/-- If `y > b` holds and `y > r` fails then `b > r` fails. -/
theorem jsGt_false_of_gt (y b r : JsNum) (h1 : JsNum.gt y b = true)
    (h2 : JsNum.gt y r = false) : JsNum.gt b r = false := by
  cases y <;> cases b <;> cases r <;> simp_all [JsNum.gt] <;> linarith

/-- The fold underlying `pickTopGoalie` returns an element of
`b :: rest` that no element of `b :: rest` strictly beats on games
played. -/
theorem foldl_pickBest_spec : ∀ (rest : List Row) (b : Row),
    (rest.foldl pickBest b = b ∨ rest.foldl pickBest b ∈ rest) ∧
    (∀ x ∈ b :: rest,
       JsNum.gt (gamesPlayedOf x) (gamesPlayedOf (rest.foldl pickBest b)) = false)
  | [], b => by
      refine ⟨Or.inl rfl, ?_⟩
      intro x hx
      rw [List.mem_singleton] at hx
      subst hx
      exact jsGt_irrefl _
  | y :: ys, b => by
      obtain ⟨IH1, IH2⟩ := foldl_pickBest_spec ys (pickBest b y)
      rw [List.foldl_cons]
      set R := List.foldl pickBest (pickBest b y) ys with hR
      have hhead := IH2 (pickBest b y) (List.mem_cons_self _ _)
      constructor
      · rcases IH1 with h | h
        · rw [h]
          unfold pickBest
          split
          · exact Or.inr (List.mem_cons_self _ _)
          · exact Or.inl rfl
        · exact Or.inr (List.mem_cons_of_mem _ h)
      · intro x hx
        rcases List.mem_cons.mp hx with hxb | hx2
        · rw [hxb]
          cases hgt : JsNum.gt (gamesPlayedOf y) (gamesPlayedOf b) with
          | true =>
              have hy : pickBest b y = y := by simp [pickBest, hgt]
              rw [hy] at hhead
              exact jsGt_false_of_gt _ _ _ hgt hhead
          | false =>
              have hb : pickBest b y = b := by simp [pickBest, hgt]
              rw [hb] at hhead
              exact hhead
        · rcases List.mem_cons.mp hx2 with hxy | hxs
          · rw [hxy]
            cases hgt : JsNum.gt (gamesPlayedOf y) (gamesPlayedOf b) with
            | true =>
                have hy : pickBest b y = y := by simp [pickBest, hgt]
                rw [hy] at hhead
                exact hhead
            | false =>
                have hb : pickBest b y = b := by simp [pickBest, hgt]
                rw [hb] at hhead
                exact jsGt_false_trans _ _ _ (getFloat_ne_nan b _) hgt hhead
          · exact IH2 x (List.mem_cons_of_mem _ hxs)

/-- The pick `pickTopGoalie` selects a roster member whose games-played value no
team-mate strictly exceeds. -/
theorem pickTopGoalie_spec (l : List Row) (g : Row)
    (h : pickTopGoalie l = some g) :
    g ∈ l ∧ ∀ x ∈ l, JsNum.gt (gamesPlayedOf x) (gamesPlayedOf g) = false := by
  cases l with
  | nil => simp [pickTopGoalie] at h
  | cons b rest =>
      simp only [pickTopGoalie, Option.some.injEq] at h
      subst h
      have hs := foldl_pickBest_spec rest b
      refine ⟨?_, hs.2⟩
      rcases hs.1 with h1 | h1
      · rw [h1]
        exact List.mem_cons_self _ _
      · exact List.mem_cons_of_mem _ h1

/-- C8 (amended): when neither the caller name nor the starter projection
resolves to a roster row, the pipeline selects a team goaltender whose
games-played value no team-mate strictly exceeds, with status the literal
`"Projected #1"` (not `"projected"`); with no team goaltenders at all it
returns the fixed average-goaltender placeholder (name
`"Average Goalie"`, save percentage 0.9, zero GSAx and GAA), so the
caller always receives a well-shaped goaltender object. -/
theorem c8_goalie_fallback_amended (goalieTable : List Row)
    (starters : List (String × String)) (teamCode : String)
    (requested : Option String)
    (hnores : resolvedRow goalieTable starters teamCode requested = none) :
    (∀ g, pickTopGoalie (teamGoaliesOf goalieTable teamCode) = some g →
       (resolveGoalie goalieTable starters teamCode requested).status =
         "Projected #1" ∧
       (resolveGoalie goalieTable starters teamCode requested).name =
         (rowGet g "name").getD "" ∧
       g ∈ teamGoaliesOf goalieTable teamCode ∧
       (∀ g2 ∈ teamGoaliesOf goalieTable teamCode,
          JsNum.gt (gamesPlayedOf g2) (gamesPlayedOf g) = false)) ∧
    (pickTopGoalie (teamGoaliesOf goalieTable teamCode) = none →
       (resolveGoalie goalieTable starters teamCode requested).name =
         "Average Goalie" ∧
       (resolveGoalie goalieTable starters teamCode requested).gsax = JsNum.num 0 ∧
       (resolveGoalie goalieTable starters teamCode requested).gaa = JsNum.num 0 ∧
       (resolveGoalie goalieTable starters teamCode requested).svPct =
         JsNum.num (9 / 10)) := by
  constructor
  · intro g hpick
    have hspec := pickTopGoalie_spec _ g hpick
    refine ⟨?_, ?_, hspec.1, hspec.2⟩ <;>
      simp [resolveGoalie, hnores, hpick, goalieStatsOfRow]
  · intro hnone
    refine ⟨?_, ?_, ?_, ?_⟩ <;>
      simp [resolveGoalie, hnores, hnone]

/-- C8 counterexample data: the Dallas number-one goaltender (ten games
played). -/
def c8G1 : Row :=
  [("name", "Jake Oettinger"), ("team", "DAL"), ("gamesPlayed", "10"),
   ("iceTime", "36000"), ("goalsAgainst", "20"),
   ("goalsSavedAboveExpected", "5"), ("savePercentage", "0.915")]

/-- C8 counterexample data: the Dallas backup (three games played). -/
def c8G2 : Row :=
  [("name", "Casey DeSmith"), ("team", "DAL"), ("gamesPlayed", "3"),
   ("iceTime", "9000"), ("goalsAgainst", "9"),
   ("goalsSavedAboveExpected", "1"), ("savePercentage", "0.9")]

/-- C8 roster: two Dallas goaltenders. -/
def c8Roster : List Row := [c8G1, c8G2]

/-- Shared evaluation: on the Dallas roster with no caller override and no
starter entry, `pickTopGoalie` selects the ten-game goaltender. -/
theorem c8_pick_eval :
    pickTopGoalie (teamGoaliesOf c8Roster "DAL") = some c8G1 := by
  have hteam : teamGoaliesOf c8Roster "DAL" = [c8G1, c8G2] := by decide
  have h1 : gamesPlayedOf c8G1 = JsNum.num 10 := by
    simp [gamesPlayedOf, getFloat, rowGet, c8G1, List.lookup, parseFloat_ten]
  have h2 : gamesPlayedOf c8G2 = JsNum.num 3 := by
    simp [gamesPlayedOf, getFloat, rowGet, c8G2, List.lookup, parseFloat_three]
  rw [hteam]
  simp only [pickTopGoalie, List.foldl_cons, List.foldl_nil, pickBest, h1, h2,
    JsNum.gt]
  norm_num

/-- C8 counterexample: with no caller override and no starter entry for
DAL, the pipeline selects the ten-game goaltender as the claim says, but
its status is the literal `"Projected #1"`, not the claimed
`"projected"`. -/
theorem c8_counterexample :
    (resolveGoalie c8Roster [] "DAL" none).name = "Jake Oettinger" ∧
    (resolveGoalie c8Roster [] "DAL" none).status = "Projected #1" ∧
    "Projected #1" ≠ "projected" := by
  have hrr : resolvedRow c8Roster [] "DAL" none = none := by decide
  refine ⟨?_, ?_, by decide⟩ <;>
    simp [resolveGoalie, hrr, c8_pick_eval, goalieStatsOfRow, rowGet, c8G1,
      List.lookup]

/-- C8 witness: the amended statement at the Dallas roster (fallback
selection) and at an empty roster (average-goaltender placeholder). -/
theorem c8_goalie_witness :
    (resolveGoalie c8Roster [] "DAL" none).status = "Projected #1" ∧
    (resolveGoalie c8Roster [] "DAL" none).name = (rowGet c8G1 "name").getD "" ∧
    (resolveGoalie [] [] "TOR" none).name = "Average Goalie" ∧
    (resolveGoalie [] [] "TOR" none).svPct = JsNum.num (9 / 10) := by
  have h1 := (c8_goalie_fallback_amended c8Roster [] "DAL" none (by decide)).1
    c8G1 c8_pick_eval
  have h2 := (c8_goalie_fallback_amended [] [] "TOR" none (by decide)).2 (by decide)
  exact ⟨h1.1, h1.2.1, h2.1, h2.2.2.2⟩

/-! ## C9: the xgaPer60 end-to-end scenario -/

/-- C9 scenario data: the season-export row
`{team: "T.B", situation: "5on5", iceTime: "1200", xGoalsAgainst: "10"}`. -/
def c9Row : Row :=
  [("team", "T.B"), ("situation", "5on5"), ("iceTime", "1200"),
   ("xGoalsAgainst", "10")]

/-- C9: whenever the cached season table resolves team `TBL` (the
normalization of `"T.B"`) at situation 5on5 to the scenario row, any
report the derivation produces carries
`xgaPer60 = (10 / 1200) * 3600 = 30` exactly. -/
theorem c9_xgaPer60 (teamStats goalieTable : List Row) (rpt : TeamReport)
    (hfind : teamStats.find? (teamRowMatch "TBL" "5on5") = some c9Row)
    (hrpt : getSavantStats teamStats goalieTable "TBL" none =
      Except.ok (some rpt)) :
    rpt.xgaPer60 = JsNum.num 30 ∧
    rpt.xgaPer60 = JsNum.num ((10 : ℚ) / 1200 * 3600) ∧
    normalizeTeamCode "T.B" = "TBL" := by
  have hval : xgaPer60Sv c9Row = JsNum.num ((10 : ℚ) / 1200 * 3600) := by
    have hxga : getFloat c9Row ["xGoalsAgainst", "scoreVenueAdjustedxGoalsAgainst"] =
        JsNum.num 10 := by
      simp [getFloat, rowGet, c9Row, List.lookup, parseFloat_ten]
    have hice : getFloat c9Row ["iceTime"] = JsNum.num 1200 := by
      simp [getFloat, rowGet, c9Row, List.lookup, parseFloat_1200]
    simp only [xgaPer60Sv, iceTimeSecondsSv, hxga, hice]
    norm_num [JsNum.div, JsNum.mul, JsNum.orElse, JsNum.falsy]
  have hfield : rpt.xgaPer60 = xgaPer60Sv c9Row := by
    cases hall : teamStats.find? (teamRowMatch "TBL" "all") with
    | none => simp [getSavantStats, hfind, hall] at hrpt
    | some allRow =>
        simp only [getSavantStats, hfind, hall, Except.ok.injEq,
          Option.some.injEq] at hrpt
        subst hrpt
        rfl
  refine ⟨?_, hfield.trans hval, by decide⟩
  rw [hfield, hval]
  norm_num

/-- C9 witness data: a matching `situation = "all"` row so the derivation
completes. -/
def c9AllRow : Row :=
  [("team", "T.B"), ("situation", "all"), ("iceTime", "7200"),
   ("goalsFor", "6"), ("goalsAgainst", "6")]

/-- C9 witness data: the report derived from the two-row table. -/
def c9Report : TeamReport :=
  { name := "TBL"
    gfPerGame := gfPerGameSv c9AllRow
    gaPerGame := gaPerGameSv c9AllRow
    xgaPer60 := xgaPer60Sv c9Row
    ppPercent := ppPercentSv c9AllRow
    pkPercent := pkPercentSv c9AllRow
    pimsPerGame := pimsPerGameSv c9AllRow
    xgfPercent := JsNum.mul (getFloat c9Row ["xGoalsPercentage"]) (JsNum.num 100)
    hdcfPercent := hdcfPercentSv c9Row
    shootingPercent := JsNum.mul (getFloat c9Row ["shootingPercentage"]) (JsNum.num 100)
    faceoffPercent := JsNum.mul (getFloat c9AllRow ["faceOffWinPercentage"]) (JsNum.num 100)
    gsaxPer60 := JsNum.num 0
    svPercent := JsNum.num 0
    corsiPercent := JsNum.mul (getFloat c9Row ["corsiPercentage"]) (JsNum.num 100)
    gaa := JsNum.num 0 }

/-- C9 witness: the scenario at the concrete two-row cache. -/
theorem c9_xgaPer60_witness :
    getSavantStats [c9Row, c9AllRow] [] "TBL" none = Except.ok (some c9Report) ∧
    c9Report.xgaPer60 = JsNum.num 30 :=
  have hfind : [c9Row, c9AllRow].find? (teamRowMatch "TBL" "5on5") = some c9Row := by
    decide
  have hrpt : getSavantStats [c9Row, c9AllRow] [] "TBL" none =
      Except.ok (some c9Report) := rfl
  ⟨hrpt, (c9_xgaPer60 [c9Row, c9AllRow] [] c9Report hfind hrpt).1⟩

/-! ## C10: the goaltender list count -/

/-- The spec-side row-level keep predicate: extracted ice-time not
`<= 0`, and the optional team and name filters pass (evaluated on the
row's own derived team code and name). -/
def keptRow (teamFilter nameFilter : Option String) (row : Row) : Bool :=
  !(JsNum.le (rowSeconds row) (JsNum.num 0)) &&
    (match teamFilter with
     | some t => rowTeamCode row == normalizeTeamCodeG t
     | none => true) &&
    (match nameFilter with
     | some n => strIncludes ((rowGoalieName row).toLower) (n.toLower)
     | none => true)

/-- Pushing a double filter over the entry builder down to a row count. -/
theorem length_filterMap_filter (starters : List (String × String))
    (pT pN : GoalieListEntry → Bool) : ∀ table : List Row,
    (((table.filterMap (mkGoalieEntry starters)).filter pT).filter pN).length =
      table.countP
        (fun row => ((mkGoalieEntry starters row).map
          (fun e => pT e && pN e)).getD false)
  | [] => rfl
  | row :: rest => by
      have IH := length_filterMap_filter starters pT pN rest
      cases hmk : mkGoalieEntry starters row with
      | none => simp [-List.filter_filter, List.countP_cons, hmk, IH]
      | some e =>
          cases hpT : pT e with
          | false => simp [-List.filter_filter, List.countP_cons, hmk, hpT, IH]
          | true =>
              cases hpN : pN e <;>
                simp [-List.filter_filter, List.countP_cons, hmk, hpT, hpN, IH]

/-- Per-row bridge: the built entry passes the filters exactly when the
raw row satisfies `keptRow`. -/
theorem mkGoalieEntry_pass (starters : List (String × String))
    (teamFilter nameFilter : Option String) (row : Row) :
    ((mkGoalieEntry starters row).map
        (fun e => entryTeamPass teamFilter e && entryNamePass nameFilter e)).getD
        false =
      keptRow teamFilter nameFilter row := by
  unfold mkGoalieEntry keptRow
  cases hle : JsNum.le (rowSeconds row) (JsNum.num 0) with
  | true => simp [hle]
  | false =>
      cases teamFilter <;> cases nameFilter <;>
        simp [hle, entryTeamPass, entryNamePass, Bool.and_assoc]

/-- Ice-time comparison bridge: the extractor never yields NaN, so
"not `<= 0`" and "`> 0`" agree. -/
theorem jsLe_zero_false_iff_gt (x : JsNum) (hx : x ≠ JsNum.nan) :
    JsNum.le x (JsNum.num 0) = false ↔ JsNum.gt x (JsNum.num 0) = true := by
  cases x <;> simp_all [JsNum.le, JsNum.gt, not_le]

/-- C10: the goaltender-list count equals the number of cached rows whose
extracted ice-time is positive and which pass the optional team and name
filters; rows with ice-time `<= 0` are excluded; rows where every
ice-time candidate is missing or unparseable extract to 0 (hence are
excluded); and since the extractor never yields NaN, "not `<= 0`" is
exactly "positive". -/
theorem c10_goalie_count (table : List Row) (starters : List (String × String))
    (teamFilter nameFilter : Option String) :
    goalieListCount table starters teamFilter nameFilter =
      table.countP (keptRow teamFilter nameFilter) ∧
    (∀ row, JsNum.le (rowSeconds row) (JsNum.num 0) = true →
       keptRow teamFilter nameFilter row = false) ∧
    (∀ row, (∀ k ∈ iceKeysGS, qualifies row k = false) →
       rowSeconds row = JsNum.num 0) ∧
    (∀ row, JsNum.le (rowSeconds row) (JsNum.num 0) = false ↔
       JsNum.gt (rowSeconds row) (JsNum.num 0) = true) := by
  refine ⟨?_, ?_, ?_, ?_⟩
  · unfold goalieListCount processGoalies
    rw [(List.mergeSort_perm (filteredGoalies table starters teamFilter nameFilter)
      goalieBefore).length_eq]
    unfold filteredGoalies
    rw [length_filterMap_filter]
    exact List.countP_congr
      (fun row _ => by rw [mkGoalieEntry_pass starters teamFilter nameFilter row])
  · intro row hle
    simp [keptRow, hle]
  · intro row hq
    exact getFloat_of_no_qualify row iceKeysGS hq
  · intro row
    exact jsLe_zero_false_iff_gt _ (getFloat_ne_nan row iceKeysGS)

/-- C10 witness data: a goaltender with ice-time. -/
def c10PlayRow : Row :=
  [("name", "Joseph Woll"), ("team", "TOR"), ("iceTime", "36000"),
   ("goalsAgainst", "20"), ("goalsSavedAboveExpected", "5"),
   ("savePercentage", "0.915"), ("gamesPlayed", "10")]

/-- C10 witness data: a call-up with zero ice-time. -/
def c10ZeroRow : Row :=
  [("name", "Bench Goalie"), ("team", "TOR"), ("iceTime", "0")]

/-- C10 witness: on a two-row table with one zero-ice-time row and no
filters, the count is 1; the zero row is excluded; a row with no ice-time
column extracts to 0. -/
theorem c10_goalie_count_witness :
    goalieListCount [c10PlayRow, c10ZeroRow] [] none none = 1 ∧
    keptRow none none c10ZeroRow = false ∧
    rowSeconds [("name", "NoTime Goalie")] = JsNum.num 0 := by
  have hz : rowSeconds c10ZeroRow = JsNum.num 0 := by
    simp [rowSeconds, iceKeysGS, getFloat, rowGet, c10ZeroRow, List.lookup,
      parseFloat_zero]
  have hle : JsNum.le (rowSeconds c10ZeroRow) (JsNum.num 0) = true := by
    rw [hz]
    simp [JsNum.le]
  have hp : rowSeconds c10PlayRow = JsNum.num 36000 := by
    simp [rowSeconds, iceKeysGS, getFloat, rowGet, c10PlayRow, List.lookup,
      parseFloat_36000]
  refine ⟨?_, (c10_goalie_count [c10PlayRow, c10ZeroRow] [] none none).2.1
      c10ZeroRow hle,
    (c10_goalie_count [c10PlayRow, c10ZeroRow] [] none none).2.2.1
      [("name", "NoTime Goalie")] (by decide)⟩
  rw [(c10_goalie_count [c10PlayRow, c10ZeroRow] [] none none).1]
  have hk1 : keptRow none none c10PlayRow = true := by
    rw [keptRow, hp]
    norm_num [JsNum.le]
  have hk2 : keptRow none none c10ZeroRow = false := by
    simp [keptRow, hle]
  simp [List.countP_cons, hk1, hk2]
